import Mathlib

/-!
Shallow embedding of `src/app.py` (a small Flask dashboard for IPL
prediction results) and verification of its specification claims.

Modelling conventions:
* A pandas `DataFrame` with columns `Team`, `Result`, `points` is a
  `List RankingRecord` (one record per row, source order preserved).
* Python exceptions are made explicit: a fallible external read
  (`pd.read_csv`, `joblib.load` + attribute access) is an
  `Except Exc …` value that the reader functions receive; a `try/except`
  block becomes a `match` on that value.
* Python numeric literals and numpy floats are represented by `ℚ`
  (every literal in the source is an exact decimal); the Python
  `float(…)` cast is value-preserving on these and is modelled by
  `pyFloat`, the identity on `ℚ`.
* Python `dict`s are association lists (`List (String × _)`), which
  preserves insertion order exactly as CPython dicts do.
* The filesystem is a pair of a directory list and a file association
  list; a saved chart image is modelled by a `Chart` value recording
  what data was rendered into it.
-/

/-- A Python exception value (only its message is observable here). -/
inductive Exc where
  | err : String → Exc
deriving DecidableEq, Repr

/-- One row of the rankings table: columns `Team`, `Result`, `points`
of `data/predicted_ipl_2025_rankings.csv` (see `load_predictions`). -/
structure RankingRecord where
  Team : String
  Result : String
  points : Int
deriving DecidableEq, Repr

/-- The Python `float(…)` cast as it occurs in `load_model_metrics`:
value-preserving on the exact decimals modelled by `ℚ`. -/
def pyFloat (q : ℚ) : ℚ := q

/-- A JSON-serialisable Python value as produced by the metrics reader:
a string, a number, or a string-keyed dict of numbers. -/
inductive PyVal where
  | str : String → PyVal
  | num : ℚ → PyVal
  | dict : List (String × ℚ) → PyVal
deriving DecidableEq, Repr

/-- The hardcoded fallback table from the `except` branch of
`load_predictions` (`app.py` lines 21–29): three column lists zipped
into rows. -/
def fallback_predictions : List RankingRecord :=
  [⟨"Gujarat Titans", "Winner", 10⟩,
   ⟨"Royal Challengers Bangalore", "Runner-up", 8⟩,
   ⟨"Punjab Kings", "Second Runner-up", 8⟩,
   ⟨"Mumbai Indians", "Eliminator", 6⟩,
   ⟨"Kolkata Knight Riders", "Other", 6⟩,
   ⟨"Rajasthan Royals", "Other", 2⟩,
   ⟨"Lucknow Super Giants", "Other", 2⟩,
   ⟨"Delhi Capitals", "Other", 2⟩,
   ⟨"Chennai Super Kings", "Other", 0⟩,
   ⟨"Sunrisers Hyderabad", "Other", 0⟩]

/-- `load_predictions` (`app.py` lines 14–29): try to read the CSV;
on success return it, on any exception print and return the fallback
table. The read outcome is the explicit argument. -/
def load_predictions (csv : Except Exc (List RankingRecord)) :
    List RankingRecord :=
  match csv with
  | .ok predictions => predictions
  | .error _ => fallback_predictions

/-- The fixed ordered feature-name list of `load_model_metrics`
(`app.py` lines 38–39). -/
def features : List String :=
  ["batting_strength", "bowling_strength", "consistency",
   "historical_win_rate", "head_to_head_win_rate", "venue_win_rate"]

/-- The dict comprehension
`{feature: float(importance) for feature, importance in zip(features, feature_importances)}`
of `app.py` line 40: `zip` truncates to the shorter list. -/
def importance_dict (feature_importances : List ℚ) : List (String × ℚ) :=
  (features.zip feature_importances).map (fun p => (p.1, pyFloat p.2))

/-- `load_model_metrics` (`app.py` lines 32–60): try to load the model
and read its `feature_importances_` vector (the combined outcome is the
explicit argument); build the metrics dict, or on any exception return
the hardcoded fallback dict. -/
def load_model_metrics (art : Except Exc (List ℚ)) :
    List (String × PyVal) :=
  match art with
  | .ok feature_importances =>
      [("best_model", PyVal.str "XGBoost"),
       ("accuracy", PyVal.num 97.60),
       ("feature_importance", PyVal.dict (importance_dict feature_importances))]
  | .error _ =>
      [("best_model", PyVal.str "XGBoost"),
       ("accuracy", PyVal.num 97.60),
       ("feature_importance", PyVal.dict
         [("batting_strength", 0.35),
          ("bowling_strength", 0.25),
          ("consistency", 0.15),
          ("historical_win_rate", 0.10),
          ("head_to_head_win_rate", 0.10),
          ("venue_win_rate", 0.05)])]

/-- What a saved chart image contains: the bar chart of team points
(`sns.barplot(x='Team', y='points', data=predictions)`) or the
horizontal bar chart of feature importances. -/
inductive Chart where
  | pointsBar : List RankingRecord → Chart
  | importanceBar : List (String × ℚ) → Chart
deriving DecidableEq, Repr

/-- The filesystem visible to the app: existing directories and the
image files written by `plt.savefig`, keyed by path. -/
structure FS where
  dirs : List String
  files : List (String × Chart)
deriving DecidableEq, Repr

/-- Update-or-append on an association list: the semantics of writing
a file at a path (overwrite when present, create when absent). -/
def setPair (l : List (String × Chart)) (p : String) (c : Chart) :
    List (String × Chart) :=
  match l with
  | [] => [(p, c)]
  | (q, d) :: t => if q = p then (p, c) :: t else (q, d) :: setPair t p c

/-- `os.makedirs` on the model filesystem. -/
def FS.mkdir (fs : FS) (d : String) : FS :=
  ⟨d :: fs.dirs, fs.files⟩

/-- `plt.savefig` on the model filesystem. -/
def FS.save (fs : FS) (p : String) (c : Chart) : FS :=
  ⟨fs.dirs, setPair fs.files p c⟩

/-- The world a request executes against: the outcome of reading the
rankings CSV, the outcome of loading the model artifact and reading
its `feature_importances_`, and the filesystem. -/
structure World where
  csv : Except Exc (List RankingRecord)
  modelArt : Except Exc (List ℚ)
  fs : FS

/-- Which rendering primitives inside the `try` block of
`generate_visualizations` raise on this invocation (`os.makedirs`, the
two `sns.barplot` figure constructions, the two `plt.savefig` calls). -/
structure RenderFaults where
  failMkdir : Bool
  failChart1 : Bool
  failSave1 : Bool
  failChart2 : Bool
  failSave2 : Bool
deriving DecidableEq, Repr

/-- The invocation on which every rendering primitive succeeds. -/
def noFaults : RenderFaults := ⟨false, false, false, false, false⟩

/-- `metrics['feature_importance']` as used by `generate_visualizations`
(`app.py` lines 82–85): the dict stored under that key (the key is
always present and dict-valued in both branches of the reader). -/
def getImportance (metrics : List (String × PyVal)) : List (String × ℚ) :=
  match metrics.lookup "feature_importance" with
  | some (PyVal.dict d) => d
  | _ => []

/-- `metrics['best_model']` as read by `index` (`app.py` line 109). -/
def getBestModel (metrics : List (String × PyVal)) : String :=
  match metrics.lookup "best_model" with
  | some (PyVal.str s) => s
  | _ => ""

/-- `metrics['accuracy']` as read by `index` (`app.py` line 110). -/
def getAccuracy (metrics : List (String × PyVal)) : ℚ :=
  match metrics.lookup "accuracy" with
  | some (PyVal.num q) => q
  | _ => 0

/-- The `try` block of `generate_visualizations` after the `static`
directory is ensured: build and save the team-points chart, then build
and save the feature-importance chart. -/
def gvAfterMkdir (w : World) (rf : RenderFaults) (fs1 : FS) :
    Except (Exc × FS) FS :=
  let predictions := load_predictions w.csv
  if rf.failChart1 then
    .error (Exc.err "barplot points", fs1)
  else if rf.failSave1 then
    .error (Exc.err "savefig team_points", fs1)
  else
    let fs2 := fs1.save "static/team_points.png" (Chart.pointsBar predictions)
    let metrics := load_model_metrics w.modelArt
    let importance := getImportance metrics
    if rf.failChart2 then
      .error (Exc.err "barplot importance", fs2)
    else if rf.failSave2 then
      .error (Exc.err "savefig feature_importance", fs2)
    else
      .ok (fs2.save "static/feature_importance.png"
            (Chart.importanceBar importance))

/-- The `try` block of `generate_visualizations` (`app.py` lines
64–91), with each fallible rendering primitive raising according to
`rf`. An `error` result carries the exception together with the
filesystem state at the moment of the raise (earlier writes persist). -/
def gvTry (w : World) (rf : RenderFaults) : Except (Exc × FS) FS :=
  let fs0 := w.fs
  if fs0.dirs.contains "static" then
    gvAfterMkdir w rf fs0
  else if rf.failMkdir then
    .error (Exc.err "makedirs", fs0)
  else
    gvAfterMkdir w rf (fs0.mkdir "static")

/-- `generate_visualizations` (`app.py` lines 63–93): the `try` block
wrapped in `except Exception: print(...)` — an exception is swallowed
and the function returns normally with whatever was written so far. -/
def generate_visualizations (w : World) (rf : RenderFaults) : FS :=
  match gvTry w rf with
  | .ok fs => fs
  | .error (_, fs) => fs

/-- What `index` passes to `render_template('index.html', ...)`
(`app.py` lines 116–120): the full ranking table, the `top_teams`
slice, the model name/accuracy pair, and the importance mapping. -/
structure IndexResponse where
  predictions : List RankingRecord
  top_teams : List RankingRecord
  model_name : String
  model_accuracy : ℚ
  feature_importance : List (String × ℚ)
deriving DecidableEq, Repr

/-- The dashboard handler `index` (`app.py` lines 95–120): regenerate
both charts, reload both data sources, slice the first four rows as
`top_teams` (`predictions.iloc[:4]`), and render the page. Returns the
rendered data together with the filesystem after the request. -/
def index (w : World) (rf : RenderFaults) : IndexResponse × FS :=
  let fs1 := generate_visualizations w rf
  let predictions := load_predictions w.csv
  let metrics := load_model_metrics w.modelArt
  let top_teams := predictions.take 4
  (⟨predictions, top_teams, getBestModel metrics, getAccuracy metrics,
    getImportance metrics⟩, fs1)

/-- The dashboard handler in exception-propagating semantics: the only
fallible step it performs is `generate_visualizations`, whose internal
`try/except` already yields a total function, so the handler itself
produces `.ok`. Stated in `Except` so that an uncaught rendering
exception would surface here as `.error`. -/
def index_exc (w : World) (rf : RenderFaults) :
    Except (Exc × FS) (IndexResponse × FS) :=
  .ok (index w rf)

/-- `api_predictions` (`app.py` lines 122–125): load the rankings and
serialise them (`to_dict('records')` then `jsonify`, both
order-and-value preserving, hence the identity in this model). No
filesystem access. -/
def api_predictions (w : World) : List RankingRecord × FS :=
  (load_predictions w.csv, w.fs)

/-- `api_metrics` (`app.py` lines 127–129): load the metrics dict and
serialise it. No filesystem access. -/
def api_metrics (w : World) : List (String × PyVal) × FS :=
  (load_model_metrics w.modelArt, w.fs)

/-- `about` (`app.py` lines 131–133): render the static page. No data
dependency, no filesystem access. -/
def about (w : World) : String × FS :=
  ("about.html", w.fs)

/-! ## Helper lemmas about the filesystem model -/

/-- Writing at a path makes a subsequent lookup at that path return the
written content. -/
theorem lookup_setPair_self (l : List (String × Chart)) (p : String)
    (c : Chart) : (setPair l p c).lookup p = some c := by
  induction l with
  | nil => simp [setPair, List.lookup]
  | cons hd tl ih =>
      obtain ⟨q, d⟩ := hd
      by_cases hqp : q = p
      · simp [setPair, hqp, List.lookup]
      · have hb : (p == q) = false := by
          simp only [beq_eq_false_iff_ne]
          exact fun h => hqp h.symm
        simp [setPair, hqp, List.lookup, hb, ih]

/-- Writing at a path leaves a lookup at any other path unchanged. -/
theorem lookup_setPair_ne (l : List (String × Chart)) (p q : String)
    (c : Chart) (hqp : q ≠ p) :
    (setPair l p c).lookup q = l.lookup q := by
  have hb : (q == p) = false := by
    simp only [beq_eq_false_iff_ne]
    exact hqp
  induction l with
  | nil => simp [setPair, List.lookup, hb]
  | cons hd tl ih =>
      obtain ⟨r, d⟩ := hd
      by_cases hrp : r = p
      · simp [setPair, hrp, List.lookup, hb, ih]
      · simp [setPair, hrp, List.lookup, ih]

/-- On a fault-free invocation, the `try` block of
`generate_visualizations` completes and writes exactly the two chart
files over the input filesystem (plus the `static` directory when it
was absent). -/
theorem gvTry_noFaults (w : World) :
    gvTry w noFaults =
      .ok ((FS.save
        (FS.save
          (if w.fs.dirs.contains "static" then w.fs else w.fs.mkdir "static")
          "static/team_points.png" (Chart.pointsBar (load_predictions w.csv)))
        "static/feature_importance.png"
        (Chart.importanceBar (getImportance (load_model_metrics w.modelArt))))) := by
  by_cases hdir : "static" ∈ w.fs.dirs <;>
    simp [gvTry, gvAfterMkdir, noFaults, hdir]

/-- After a fault-free `generate_visualizations`, the file table is the
input file table with the two chart files written in order. -/
theorem gv_noFaults_files (w : World) :
    (generate_visualizations w noFaults).files
      = setPair
          (setPair w.fs.files "static/team_points.png"
            (Chart.pointsBar (load_predictions w.csv)))
          "static/feature_importance.png"
          (Chart.importanceBar (getImportance (load_model_metrics w.modelArt))) := by
  have hg := gvTry_noFaults w
  simp only [generate_visualizations, hg]
  cases hc : w.fs.dirs.contains "static" <;> simp [hc, FS.save, FS.mkdir]

/-! ## Claim theorems -/

/-- C1: `load_predictions` never raises past its boundary — for every
outcome of reading the ranking source it returns a usable sequence, and
on any failure it returns exactly the fixed 10-entry fallback sequence
with the fixed team names, result categories and point values. -/
theorem c1_load_predictions_fallback :
    (∀ t, load_predictions (.ok t) = t) ∧
    (∀ e, load_predictions (.error e) =
      [⟨"Gujarat Titans", "Winner", 10⟩,
       ⟨"Royal Challengers Bangalore", "Runner-up", 8⟩,
       ⟨"Punjab Kings", "Second Runner-up", 8⟩,
       ⟨"Mumbai Indians", "Eliminator", 6⟩,
       ⟨"Kolkata Knight Riders", "Other", 6⟩,
       ⟨"Rajasthan Royals", "Other", 2⟩,
       ⟨"Lucknow Super Giants", "Other", 2⟩,
       ⟨"Delhi Capitals", "Other", 2⟩,
       ⟨"Chennai Super Kings", "Other", 0⟩,
       ⟨"Sunrisers Hyderabad", "Other", 0⟩]) ∧
    (∀ e, (load_predictions (.error e)).length = 10) :=
  ⟨fun _ => rfl, fun _ => rfl, fun _ => rfl⟩

/-- C2: `load_model_metrics` never raises — on any failure to load the
model artifact it returns the fixed fallback record with best_model
"XGBoost", accuracy 97.60 and the fixed six feature importances. -/
theorem c2_load_model_metrics_fallback (e : Exc) :
    load_model_metrics (.error e) =
      [("best_model", PyVal.str "XGBoost"),
       ("accuracy", PyVal.num 97.60),
       ("feature_importance", PyVal.dict
         [("batting_strength", 0.35),
          ("bowling_strength", 0.25),
          ("consistency", 0.15),
          ("historical_win_rate", 0.10),
          ("head_to_head_win_rate", 0.10),
          ("venue_win_rate", 0.05)])] := rfl

/-- C3: on the success path of `load_model_metrics`, the returned
feature-importance mapping pairs the fixed feature name at position `i`
with `float(v[i])` for each `i` below `min (length of v) 6`; the
pairing truncates to the shorter of the two sequences. -/
theorem c3_importance_zip_truncates (v : List ℚ) :
    (load_model_metrics (.ok v)).lookup "feature_importance"
      = some (PyVal.dict (importance_dict v)) ∧
    (importance_dict v).length = min v.length 6 ∧
    ∀ i, i < min v.length 6 →
      ∃ f q, features[i]? = some f ∧ v[i]? = some q ∧
        (importance_dict v)[i]? = some (f, pyFloat q) := by
  refine ⟨rfl, ?_, ?_⟩
  · simp [importance_dict, Nat.min_comm, features]
  · intro i hi
    have hif : i < features.length := by
      simp only [features, List.length]
      omega
    have hiv : i < v.length := lt_of_lt_of_le hi (min_le_left _ _)
    refine ⟨features.get ⟨i, hif⟩, v.get ⟨i, hiv⟩, ?_, ?_, ?_⟩
    · exact List.getElem?_eq_getElem hif
    · exact List.getElem?_eq_getElem hiv
    · simp [importance_dict, List.getElem?_map, List.getElem?_zip_eq_some,
        List.getElem?_eq_getElem, hif, hiv]

/-- C3 witness: the theorem instantiated at the concrete length-2
vector `[1/2, 3/4]` (shorter than the 6 feature names) and index 1. -/
theorem c3_importance_zip_truncates_witness :
    ∃ f q, features[1]? = some f ∧ ([(1 : ℚ)/2, 3/4])[1]? = some q ∧
      (importance_dict [(1 : ℚ)/2, 3/4])[1]? = some (f, pyFloat q) :=
  (c3_importance_zip_truncates [(1 : ℚ)/2, 3/4]).2.2 1 (by decide)

/-- C4: for every underlying state and fault pattern, the dashboard
handler's `top_teams` equals the first 4 elements of the sequence the
Predictions API returns for that same state. -/
theorem c4_top_teams_take4 (w : World) (rf : RenderFaults) :
    (index w rf).1.top_teams = ((api_predictions w).1).take 4 := rfl

/-- C5: for every valid ranking source, the Predictions API returns
the table itself: the length equals the source row count and each
row's team text, result category and integer points round-trip
unchanged. -/
theorem c5_api_predictions_roundtrip (t : List RankingRecord)
    (art : Except Exc (List ℚ)) (fs : FS) :
    (api_predictions ⟨.ok t, art, fs⟩).1 = t ∧
    ((api_predictions ⟨.ok t, art, fs⟩).1).length = t.length ∧
    ∀ i : ℕ,
      ((api_predictions ⟨.ok t, art, fs⟩).1)[i]?.map RankingRecord.Team
        = t[i]?.map RankingRecord.Team ∧
      ((api_predictions ⟨.ok t, art, fs⟩).1)[i]?.map RankingRecord.Result
        = t[i]?.map RankingRecord.Result ∧
      ((api_predictions ⟨.ok t, art, fs⟩).1)[i]?.map RankingRecord.points
        = t[i]?.map RankingRecord.points :=
  ⟨rfl, rfl, fun _ => ⟨rfl, rfl, rfl⟩⟩

/-- C6: for every outcome of `load_model_metrics` (success or
fallback), the Metrics API response has exactly the keys best_model,
accuracy, feature_importance, in that order. -/
theorem c6_metrics_keys (o : Except Exc (List ℚ)) (w : World) :
    (load_model_metrics o).map Prod.fst
      = ["best_model", "accuracy", "feature_importance"] ∧
    ((api_metrics w).1).map Prod.fst
      = ["best_model", "accuracy", "feature_importance"] := by
  constructor
  · cases o <;> rfl
  · show (load_model_metrics w.modelArt).map Prod.fst = _
    cases w.modelArt <;> rfl

/-- C10: the fixed fallback ranking sequence is sorted — its points
column is the non-increasing list `[10, 8, 8, 6, 6, 2, 2, 2, 0, 0]` and
its first four records carry the result categories Winner, Runner-up,
Second Runner-up, Eliminator in that order. -/
theorem c10_fallback_sorted :
    fallback_predictions.map RankingRecord.points
      = [10, 8, 8, 6, 6, 2, 2, 2, 0, 0] ∧
    (fallback_predictions.map RankingRecord.points).Chain' (· ≥ ·) ∧
    (fallback_predictions.take 4).map RankingRecord.Result
      = ["Winner", "Runner-up", "Second Runner-up", "Eliminator"] := by
  have h1 : fallback_predictions.map RankingRecord.points
      = [10, 8, 8, 6, 6, 2, 2, 2, 0, 0] := rfl
  refine ⟨h1, ?_, rfl⟩
  rw [h1]
  norm_num [List.chain'_cons]

/-- C7: `generate_visualizations` catches every rendering failure
internally — whenever its `try` block raises, the function still
returns (with the filesystem as of the raise), and the dashboard
handler, run in exception-propagating semantics, still produces its
response. -/
theorem c7_rendering_failures_caught (w : World) (rf : RenderFaults) :
    (∀ e s, gvTry w rf = .error (e, s) →
      generate_visualizations w rf = s) ∧
    (index_exc w rf).isOk = true := by
  constructor
  · intro e s h
    simp [generate_visualizations, h]
  · rfl

/-- C7 witness: a concrete invocation on which the first `plt.savefig`
raises — the exception is caught, the filesystem keeps only the
`static` directory created before the raise, and the dashboard
response is still produced. -/
theorem c7_rendering_failures_caught_witness :
    gvTry ⟨.error (.err "no csv"), .error (.err "no model"), ⟨[], []⟩⟩
        ⟨false, false, true, false, false⟩
      = .error (Exc.err "savefig team_points", ⟨["static"], []⟩) ∧
    generate_visualizations
        ⟨.error (.err "no csv"), .error (.err "no model"), ⟨[], []⟩⟩
        ⟨false, false, true, false, false⟩
      = ⟨["static"], []⟩ ∧
    (index_exc ⟨.error (.err "no csv"), .error (.err "no model"), ⟨[], []⟩⟩
        ⟨false, false, true, false, false⟩).isOk = true := by
  refine ⟨rfl, ?_, ?_⟩
  · exact (c7_rendering_failures_caught _ _).1 _ _ rfl
  · exact (c7_rendering_failures_caught _ _).2

/-- C8: after every fault-free dashboard invocation both chart image
files exist, whatever the outcomes of the CSV read and the model load
(real or fallback data). -/
theorem c8_chart_files_exist (csv : Except Exc (List RankingRecord))
    (art : Except Exc (List ℚ)) (fs : FS) :
    ((((index ⟨csv, art, fs⟩ noFaults).2).files.lookup
        "static/team_points.png").isSome = true) ∧
    ((((index ⟨csv, art, fs⟩ noFaults).2).files.lookup
        "static/feature_importance.png").isSome = true) := by
  have h : (index ⟨csv, art, fs⟩ noFaults).2
      = generate_visualizations ⟨csv, art, fs⟩ noFaults := rfl
  rw [h, gv_noFaults_files]
  constructor
  · rw [lookup_setPair_ne _ _ _ _ (by decide :
      ("static/team_points.png" : String) ≠ "static/feature_importance.png")]
    rw [lookup_setPair_self]
    rfl
  · rw [lookup_setPair_self]
    rfl

/-- C9: the dashboard is the only handler with a filesystem side
effect — the Predictions API, Metrics API and About handlers leave the
filesystem unchanged, while every fault-free dashboard invocation
overwrites the two chart files with freshly rendered content and
touches no other file. -/
theorem c9_dashboard_only_side_effect :
    (∀ w, (api_predictions w).2 = w.fs) ∧
    (∀ w, (api_metrics w).2 = w.fs) ∧
    (∀ w, (about w).2 = w.fs) ∧
    (∀ w, ((index w noFaults).2).files.lookup "static/team_points.png"
        = some (Chart.pointsBar (load_predictions w.csv)) ∧
      ((index w noFaults).2).files.lookup "static/feature_importance.png"
        = some (Chart.importanceBar
            (getImportance (load_model_metrics w.modelArt))) ∧
      ∀ p, p ≠ "static/team_points.png" →
        p ≠ "static/feature_importance.png" →
        ((index w noFaults).2).files.lookup p = w.fs.files.lookup p) := by
  refine ⟨fun _ => rfl, fun _ => rfl, fun _ => rfl, fun w => ?_⟩
  have h : (index w noFaults).2 = generate_visualizations w noFaults := rfl
  rw [h, gv_noFaults_files]
  refine ⟨?_, ?_, ?_⟩
  · rw [lookup_setPair_ne _ _ _ _ (by decide :
      ("static/team_points.png" : String) ≠ "static/feature_importance.png")]
    exact lookup_setPair_self _ _ _
  · exact lookup_setPair_self _ _ _
  · intro p hp1 hp2
    rw [lookup_setPair_ne _ _ _ _ hp2, lookup_setPair_ne _ _ _ _ hp1]

/-- C9 witness: at a concrete world holding one unrelated file, the
frame part of the theorem instantiated at that file's path — a
dashboard invocation leaves it untouched. -/
theorem c9_dashboard_only_side_effect_witness :
    ((index ⟨.error (.err "no csv"), .error (.err "no model"),
        ⟨[], [("data/other.png", Chart.importanceBar [])]⟩⟩ noFaults).2).files.lookup
        "data/other.png"
      = some (Chart.importanceBar []) :=
  ((c9_dashboard_only_side_effect.2.2.2
    ⟨.error (.err "no csv"), .error (.err "no model"),
      ⟨[], [("data/other.png", Chart.importanceBar [])]⟩⟩).2.2
    "data/other.png" (by decide) (by decide)).trans rfl
